import Mathlib

/-!
Verification of `cubecl-wgpu/src/backend/vulkan/features.rs`
(`ExtendedFeatures` — Vulkan device-feature negotiation).

The Rust code owns five mandatory Vulkan feature descriptors and up to four
optional ones, probes the adapter for supported extensions, builds a
`p_next` chain over the descriptors twice (once for the feature query, once
for device creation), and zeroes the `p_next` pointers in between.

Shallow embedding choices:
* A descriptor's `p_next` pointer is an `Option DescId`, an optional index
  into the single owning `ExtendedFeatures` record (pointers can only point
  at descriptors of the same set, or be null, in every state the program
  reaches).
* The boolean feature flags of each Vulkan struct are abstracted as a
  `List Bool`; none of the verified properties depend on their number.
* `ash`'s `push_next` prepends: it walks to the end of the pushed struct's
  own chain, attaches the base struct's current `p_next` there, then makes
  the pushed struct the new head.  The walk is fueled (9 descriptors exist,
  so fuel 9 is exact for every acyclic chain).
* The external native call `get_physical_device_features2` overwrites the
  flags of every descriptor reachable from the chain head with
  adapter-chosen values (`Adapter.query_flags`).
-/

namespace VulkanFeatures

/-- Vulkan extension names occurring in the file; `otherExt` stands for any
extension name outside the four-entry optional registry (e.g. names returned
by `wgpu`'s `required_device_extensions`). -/
inductive ExtName where
  | khrCooperativeMatrix
  | extShaderAtomicFloat
  | extShaderAtomicFloat2
  | khrShaderFloatControls2
  | otherExt (n : Nat)
deriving DecidableEq, Repr

/-- Identity of one descriptor owned by `ExtendedFeatures`: the five
mandatory structs and the four optional ones. -/
inductive DescId where
  | memModel
  | float16Int8
  | buf16
  | buf8
  | subgroupExtended
  | cmma
  | atomicFloat
  | atomicFloat2
  | floatControls2
deriving DecidableEq, Repr

/-- One Vulkan feature struct: its boolean feature flags (abstracted) and
its `p_next` pointer, modelled as an optional index into the owning set. -/
structure Descriptor where
  flags : List Bool
  pNext : Option DescId
deriving DecidableEq, Repr

/-- `Default::default()` for a feature struct: zero-initialized flags and a
null `p_next`. -/
def Descriptor.default : Descriptor := { flags := [], pNext := none }

/-- The `ExtendedFeatures` struct of the Rust file: five always-present
mandatory descriptors, four optional descriptors, and the accumulated
extension-name vector. -/
structure ExtendedFeatures where
  mem_model : Descriptor
  float16_int8 : Descriptor
  buf_16 : Descriptor
  buf_8 : Descriptor
  subgroup_extended : Descriptor
  cmma : Option Descriptor
  atomic_float : Option Descriptor
  atomic_float2 : Option Descriptor
  float_controls2 : Option Descriptor
  extensions : List ExtName
deriving DecidableEq, Repr

/-- `ExtendedFeatures::default()` (the `#[derive(Default)]`): all mandatory
descriptors default, all optional slots `None`, empty extension list. -/
def ExtendedFeatures.default : ExtendedFeatures :=
  { mem_model := Descriptor.default
    float16_int8 := Descriptor.default
    buf_16 := Descriptor.default
    buf_8 := Descriptor.default
    subgroup_extended := Descriptor.default
    cmma := none
    atomic_float := none
    atomic_float2 := none
    float_controls2 := none
    extensions := [] }

/-- The opaque `wgpu::Features` request bitset. -/
abbrev Features := Nat

/-- The adapter, characterized by the answers of its three collaborator
entry points: `required_device_extensions` (via `wgpu`),
`supports_extension` (via the physical-device capabilities), and the flag
values the native feature query writes into each descriptor. -/
structure Adapter where
  required_device_extensions : Features → List ExtName
  supports_extension : ExtName → Bool
  query_flags : DescId → List Bool

/-- The four-entry optional-extension registry, in the fixed order the code
tests them: cooperative-matrix, shader-atomic-float, shader-atomic-float2,
shader-float-controls2. -/
def registryOptionals : List ExtName :=
  [ExtName.khrCooperativeMatrix, ExtName.extShaderAtomicFloat,
   ExtName.extShaderAtomicFloat2, ExtName.khrShaderFloatControls2]

/-- Read the descriptor stored under an id (optional slots may be absent). -/
def ExtendedFeatures.get (s : ExtendedFeatures) : DescId → Option Descriptor
  | .memModel => some s.mem_model
  | .float16Int8 => some s.float16_int8
  | .buf16 => some s.buf_16
  | .buf8 => some s.buf_8
  | .subgroupExtended => some s.subgroup_extended
  | .cmma => s.cmma
  | .atomicFloat => s.atomic_float
  | .atomicFloat2 => s.atomic_float2
  | .floatControls2 => s.float_controls2

/-- Write the `p_next` field of the descriptor under an id (no-op on an
absent optional slot, which never happens in any reachable call). -/
def ExtendedFeatures.setPNext (s : ExtendedFeatures) (id : DescId)
    (p : Option DescId) : ExtendedFeatures :=
  match id with
  | .memModel => { s with mem_model := { s.mem_model with pNext := p } }
  | .float16Int8 => { s with float16_int8 := { s.float16_int8 with pNext := p } }
  | .buf16 => { s with buf_16 := { s.buf_16 with pNext := p } }
  | .buf8 => { s with buf_8 := { s.buf_8 with pNext := p } }
  | .subgroupExtended =>
      { s with subgroup_extended := { s.subgroup_extended with pNext := p } }
  | .cmma => { s with cmma := s.cmma.map fun d => { d with pNext := p } }
  | .atomicFloat =>
      { s with atomic_float := s.atomic_float.map fun d => { d with pNext := p } }
  | .atomicFloat2 =>
      { s with atomic_float2 := s.atomic_float2.map fun d => { d with pNext := p } }
  | .floatControls2 =>
      { s with float_controls2 := s.float_controls2.map fun d => { d with pNext := p } }

/-- Write the flags of the descriptor under an id. -/
def ExtendedFeatures.setFlags (s : ExtendedFeatures) (id : DescId)
    (fl : List Bool) : ExtendedFeatures :=
  match id with
  | .memModel => { s with mem_model := { s.mem_model with flags := fl } }
  | .float16Int8 => { s with float16_int8 := { s.float16_int8 with flags := fl } }
  | .buf16 => { s with buf_16 := { s.buf_16 with flags := fl } }
  | .buf8 => { s with buf_8 := { s.buf_8 with flags := fl } }
  | .subgroupExtended =>
      { s with subgroup_extended := { s.subgroup_extended with flags := fl } }
  | .cmma => { s with cmma := s.cmma.map fun d => { d with flags := fl } }
  | .atomicFloat =>
      { s with atomic_float := s.atomic_float.map fun d => { d with flags := fl } }
  | .atomicFloat2 =>
      { s with atomic_float2 := s.atomic_float2.map fun d => { d with flags := fl } }
  | .floatControls2 =>
      { s with float_controls2 := s.float_controls2.map fun d => { d with flags := fl } }

/-- `ExtendedFeatures::fill_extensions`: overwrite `extensions` with the
adapter's required device extensions, then for each of the four registry
extensions test `supports_extension`, and if supported push the name and
allocate the default optional descriptor. -/
def fill_extensions (self : ExtendedFeatures) (adapter : Adapter)
    (features : Features) : ExtendedFeatures :=
  let s0 := { self with
    extensions := adapter.required_device_extensions features }
  let s1 :=
    if adapter.supports_extension ExtName.khrCooperativeMatrix then
      { s0 with extensions := s0.extensions ++ [ExtName.khrCooperativeMatrix],
                cmma := some Descriptor.default }
    else s0
  let s2 :=
    if adapter.supports_extension ExtName.extShaderAtomicFloat then
      { s1 with extensions := s1.extensions ++ [ExtName.extShaderAtomicFloat],
                atomic_float := some Descriptor.default }
    else s1
  let s3 :=
    if adapter.supports_extension ExtName.extShaderAtomicFloat2 then
      { s2 with extensions := s2.extensions ++ [ExtName.extShaderAtomicFloat2],
                atomic_float2 := some Descriptor.default }
    else s2
  let s4 :=
    if adapter.supports_extension ExtName.khrShaderFloatControls2 then
      { s3 with extensions := s3.extensions ++ [ExtName.khrShaderFloatControls2],
                float_controls2 := some Descriptor.default }
    else s3
  s4

/-- The base struct of a `p_next` chain (`PhysicalDeviceFeatures2` in the
query build, `DeviceCreateInfo` in the device-create build); only its
`p_next` head matters to the chain. -/
structure Chain where
  pNext : Option DescId
deriving DecidableEq, Repr

/-- Follow a descriptor's own `p_next` chain to its last element
(`ash::vk::ptr_chain_iter(next).last()`).  Fuel 9 covers every acyclic
chain over the nine descriptors. -/
def chainLast (s : ExtendedFeatures) : Nat → DescId → DescId
  | 0, id => id
  | fuel + 1, id =>
    match s.get id with
    | none => id
    | some d =>
      match d.pNext with
      | none => id
      | some nxt => chainLast s fuel nxt

/-- `ash`'s `push_next`: attach the base's current `p_next` at the end of
the pushed struct's own chain, then make the pushed struct the new head
(the chain grows at the front). -/
def push_next (s : ExtendedFeatures) (c : Chain) (id : DescId) :
    ExtendedFeatures × Chain :=
  let lastId := chainLast s 9 id
  (s.setPNext lastId c.pNext, { pNext := some id })

/-- The `push_opt` helper of both `fill_features` and
`add_to_device_create`: push the optional descriptor only when present. -/
def push_opt (s : ExtendedFeatures) (c : Chain) (id : DescId) :
    ExtendedFeatures × Chain :=
  if (s.get id).isSome then push_next s c id else (s, c)

/-- The push sequence shared verbatim by `fill_features` (onto
`PhysicalDeviceFeatures2`) and `add_to_device_create` (onto
`DeviceCreateInfo`): the five mandatory descriptors in declaration order,
then the four optional descriptors in registry order. -/
def link_all (s : ExtendedFeatures) (c : Chain) : ExtendedFeatures × Chain :=
  let p := push_next s c DescId.memModel
  let p := push_next p.1 p.2 DescId.float16Int8
  let p := push_next p.1 p.2 DescId.buf16
  let p := push_next p.1 p.2 DescId.buf8
  let p := push_next p.1 p.2 DescId.subgroupExtended
  let p := push_opt p.1 p.2 DescId.cmma
  let p := push_opt p.1 p.2 DescId.atomicFloat
  let p := push_opt p.1 p.2 DescId.atomicFloat2
  let p := push_opt p.1 p.2 DescId.floatControls2
  p

/-- The external native call `ash.get_physical_device_features2`, modelled
by its contract: every descriptor reachable from the chain head has its
boolean flags overwritten in place with the adapter's answers. -/
def writeChainFlags (adapter : Adapter) :
    Nat → ExtendedFeatures → Option DescId → ExtendedFeatures
  | _, s, none => s
  | 0, s, some _ => s
  | fuel + 1, s, some id =>
    let s' := s.setFlags id (adapter.query_flags id)
    match s'.get id with
    | none => s'
    | some d => writeChainFlags adapter fuel s' d.pNext

/-- `ExtendedFeatures::zero_pointers`: set the `p_next` of all five
mandatory descriptors, and of each present optional descriptor, to null. -/
def zero_pointers (s : ExtendedFeatures) : ExtendedFeatures :=
  { s with
    mem_model := { s.mem_model with pNext := none }
    float16_int8 := { s.float16_int8 with pNext := none }
    buf_16 := { s.buf_16 with pNext := none }
    buf_8 := { s.buf_8 with pNext := none }
    subgroup_extended := { s.subgroup_extended with pNext := none }
    cmma := s.cmma.map fun d => { d with pNext := none }
    atomic_float := s.atomic_float.map fun d => { d with pNext := none }
    atomic_float2 := s.atomic_float2.map fun d => { d with pNext := none }
    float_controls2 := s.float_controls2.map fun d => { d with pNext := none } }

/-- `ExtendedFeatures::fill_features`: build the query chain over a default
`PhysicalDeviceFeatures2` base, run the native feature query, then zero all
`p_next` pointers. -/
def fill_features (s : ExtendedFeatures) (adapter : Adapter) :
    ExtendedFeatures :=
  let p := link_all s { pNext := none }
  let s' := writeChainFlags adapter 9 p.1 p.2.pNext
  zero_pointers s'

/-- `ExtendedFeatures::from_adapter`: default, `fill_extensions`, then
`fill_features`. -/
def from_adapter (adapter : Adapter) (features : Features) :
    ExtendedFeatures :=
  let this := ExtendedFeatures.default
  let this := fill_extensions this adapter features
  fill_features this adapter

/-- `ExtendedFeatures::add_to_device_create`: push the same descriptor
sequence onto the caller's `DeviceCreateInfo`; returns the mutated set and
the augmented info. -/
def add_to_device_create (s : ExtendedFeatures) (info : Chain) :
    ExtendedFeatures × Chain :=
  link_all s info

/-- Traverse a chain from its head, listing the visited descriptor ids;
fuel 9 is exact for every acyclic chain over the nine descriptors. -/
def chainToList (s : ExtendedFeatures) : Nat → Option DescId → List DescId
  | _, none => []
  | 0, some _ => []
  | fuel + 1, some id =>
    match s.get id with
    | none => []
    | some d => id :: chainToList s fuel d.pNext

/-- `true` iff the `p_next` of every descriptor owned by the set (the five
mandatory ones and each present optional one) is null. -/
def optLinkNull : Option Descriptor → Bool
  | none => true
  | some d => d.pNext == none

def allLinksNull (s : ExtendedFeatures) : Bool :=
  (s.mem_model.pNext == none) && (s.float16_int8.pNext == none) &&
  (s.buf_16.pNext == none) && (s.buf_8.pNext == none) &&
  (s.subgroup_extended.pNext == none) &&
  optLinkNull s.cmma && optLinkNull s.atomic_float &&
  optLinkNull s.atomic_float2 && optLinkNull s.float_controls2

/-! ## Characterization lemmas (shared helpers) -/

/-- Closed form of `fill_extensions`: the extension vector is the adapter's
required list followed by each supported registry extension in registry
order; each optional slot is filled exactly when supported, otherwise left
as it was. -/
theorem fill_extensions_char (self : ExtendedFeatures) (a : Adapter)
    (f : Features) :
    fill_extensions self a f = { self with
      extensions := a.required_device_extensions f
        ++ (if a.supports_extension ExtName.khrCooperativeMatrix then
              [ExtName.khrCooperativeMatrix] else [])
        ++ (if a.supports_extension ExtName.extShaderAtomicFloat then
              [ExtName.extShaderAtomicFloat] else [])
        ++ (if a.supports_extension ExtName.extShaderAtomicFloat2 then
              [ExtName.extShaderAtomicFloat2] else [])
        ++ (if a.supports_extension ExtName.khrShaderFloatControls2 then
              [ExtName.khrShaderFloatControls2] else []),
      cmma := if a.supports_extension ExtName.khrCooperativeMatrix then
          some Descriptor.default else self.cmma,
      atomic_float := if a.supports_extension ExtName.extShaderAtomicFloat then
          some Descriptor.default else self.atomic_float,
      atomic_float2 :=
        if a.supports_extension ExtName.extShaderAtomicFloat2 then
          some Descriptor.default else self.atomic_float2,
      float_controls2 :=
        if a.supports_extension ExtName.khrShaderFloatControls2 then
          some Descriptor.default else self.float_controls2 } := by
  by_cases h1 : a.supports_extension ExtName.khrCooperativeMatrix = true <;>
  by_cases h2 : a.supports_extension ExtName.extShaderAtomicFloat = true <;>
  by_cases h3 : a.supports_extension ExtName.extShaderAtomicFloat2 = true <;>
  by_cases h4 : a.supports_extension ExtName.khrShaderFloatControls2 = true <;>
  simp [fill_extensions, h1, h2, h3, h4]

/-- The extension vector produced by `fill_extensions` from a default set:
the adapter's required list followed by the supported registry extensions
filtered in registry order. -/
theorem fill_extensions_extensions_eq (a : Adapter) (f : Features) :
    (fill_extensions ExtendedFeatures.default a f).extensions =
      a.required_device_extensions f
        ++ registryOptionals.filter a.supports_extension := by
  rw [fill_extensions_char]
  by_cases h1 : a.supports_extension ExtName.khrCooperativeMatrix = true <;>
  by_cases h2 : a.supports_extension ExtName.extShaderAtomicFloat = true <;>
  by_cases h3 : a.supports_extension ExtName.extShaderAtomicFloat2 = true <;>
  by_cases h4 : a.supports_extension ExtName.khrShaderFloatControls2 = true <;>
  simp [registryOptionals, h1, h2, h3, h4]

/-- Traversal order of the query chain built inside `fill_features`:
since `push_next` prepends, the head is the last pushed descriptor, so the
chain runs through the present optional descriptors in reverse registry
order and then the mandatory descriptors in reverse declaration order. -/
theorem query_chain_list (a : Adapter) (f : Features) :
    chainToList
        (link_all (fill_extensions ExtendedFeatures.default a f)
          { pNext := none }).1 9
        (link_all (fill_extensions ExtendedFeatures.default a f)
          { pNext := none }).2.pNext =
      (if a.supports_extension ExtName.khrShaderFloatControls2 then
        [DescId.floatControls2] else [])
      ++ (if a.supports_extension ExtName.extShaderAtomicFloat2 then
        [DescId.atomicFloat2] else [])
      ++ (if a.supports_extension ExtName.extShaderAtomicFloat then
        [DescId.atomicFloat] else [])
      ++ (if a.supports_extension ExtName.khrCooperativeMatrix then
        [DescId.cmma] else [])
      ++ [DescId.subgroupExtended, DescId.buf8, DescId.buf16,
          DescId.float16Int8, DescId.memModel] := by
  rw [fill_extensions_char]
  by_cases h1 : a.supports_extension ExtName.khrCooperativeMatrix = true <;>
  by_cases h2 : a.supports_extension ExtName.extShaderAtomicFloat = true <;>
  by_cases h3 : a.supports_extension ExtName.extShaderAtomicFloat2 = true <;>
  by_cases h4 : a.supports_extension ExtName.khrShaderFloatControls2 = true <;>
  simp [h1, h2, h3, h4, link_all, push_next, push_opt, chainLast, chainToList,
    ExtendedFeatures.get, ExtendedFeatures.setPNext, ExtendedFeatures.default,
    Descriptor.default]

/-- Traversal order of the device-create chain built by
`add_to_device_create` on the state `from_adapter` returns: the same
reverse-of-push order as the query chain. -/
theorem device_chain_list (a : Adapter) (f : Features) :
    chainToList
        (add_to_device_create (from_adapter a f) { pNext := none }).1 9
        (add_to_device_create (from_adapter a f) { pNext := none }).2.pNext =
      (if a.supports_extension ExtName.khrShaderFloatControls2 then
        [DescId.floatControls2] else [])
      ++ (if a.supports_extension ExtName.extShaderAtomicFloat2 then
        [DescId.atomicFloat2] else [])
      ++ (if a.supports_extension ExtName.extShaderAtomicFloat then
        [DescId.atomicFloat] else [])
      ++ (if a.supports_extension ExtName.khrCooperativeMatrix then
        [DescId.cmma] else [])
      ++ [DescId.subgroupExtended, DescId.buf8, DescId.buf16,
          DescId.float16Int8, DescId.memModel] := by
  simp only [from_adapter]
  rw [fill_extensions_char]
  by_cases h1 : a.supports_extension ExtName.khrCooperativeMatrix = true <;>
  by_cases h2 : a.supports_extension ExtName.extShaderAtomicFloat = true <;>
  by_cases h3 : a.supports_extension ExtName.extShaderAtomicFloat2 = true <;>
  by_cases h4 : a.supports_extension ExtName.khrShaderFloatControls2 = true <;>
  simp [h1, h2, h3, h4, fill_features, writeChainFlags, zero_pointers,
    add_to_device_create, link_all, push_next, push_opt, chainLast, chainToList,
    ExtendedFeatures.get, ExtendedFeatures.setPNext, ExtendedFeatures.setFlags,
    ExtendedFeatures.default, Descriptor.default]

/-- After `zero_pointers` every owned descriptor's `p_next` is null. -/
theorem zero_pointers_all_null (s : ExtendedFeatures) :
    allLinksNull (zero_pointers s) = true := by
  obtain ⟨mm, fi, b16, b8, sg, oc, oa, oa2, of2, ex⟩ := s
  cases oc <;> cases oa <;> cases oa2 <;> cases of2 <;>
    simp [zero_pointers, allLinksNull, optLinkNull]

/-! ## Concrete adapters and states used as test inputs -/

/-- An adapter whose `wgpu`-derived required extension list already names
cooperative-matrix and whose capability probe also reports it supported
(exactly what happens when `wgpu::Features::SHADER_FLOAT32_ATOMIC`-style
requests make `required_device_extensions` return a registry extension). -/
def advCM : Adapter :=
  { required_device_extensions := fun _ => [ExtName.khrCooperativeMatrix]
    supports_extension := fun e => decide (e = ExtName.khrCooperativeMatrix)
    query_flags := fun _ => [] }

/-- An adapter supporting none of the four optional extensions. -/
def advNone : Adapter :=
  { required_device_extensions := fun _ => []
    supports_extension := fun _ => false
    query_flags := fun _ => [] }

/-- An adapter supporting all four optional extensions, whose required list
holds one unrelated extension name. -/
def advAll : Adapter :=
  { required_device_extensions := fun _ => [ExtName.otherExt 0]
    supports_extension := fun _ => true
    query_flags := fun _ => [true] }

/-- A descriptor set whose `mem_model` link field was left non-null (the
sanitizer was skipped), all other links null and no optional present. -/
def sDirty : ExtendedFeatures :=
  { ExtendedFeatures.default with
    mem_model := { flags := [], pNext := some DescId.float16Int8 } }

/-! ## Claims -/

/-- C1, counterexample: on an adapter whose `required_device_extensions`
answer already names cooperative-matrix while the capability probe also
reports it supported, `fill_extensions` pushes the name a second time, so
the extension vector holds a duplicate. -/
theorem C1_counterexample :
    (fill_extensions ExtendedFeatures.default advCM 0).extensions =
        [ExtName.khrCooperativeMatrix, ExtName.khrCooperativeMatrix] ∧
      ¬ (fill_extensions ExtendedFeatures.default advCM 0).extensions.Nodup := by
  decide

/-- C1 (amended): whenever the adapter's required-extension answer is
itself duplicate-free and names none of the supported registry extensions,
the extension vector filled by `fill_extensions` is duplicate-free. -/
theorem C1_extensions_nodup (a : Adapter) (f : Features)
    (hreq : (a.required_device_extensions f).Nodup)
    (hdisj : ∀ e ∈ registryOptionals, a.supports_extension e = true →
      e ∉ a.required_device_extensions f) :
    (fill_extensions ExtendedFeatures.default a f).extensions.Nodup := by
  rw [fill_extensions_extensions_eq]
  refine List.Nodup.append hreq
    (List.Nodup.filter _ (by decide : registryOptionals.Nodup)) ?_
  intro e he hef
  rw [List.mem_filter] at hef
  exact hdisj e hef.1 hef.2 he

/-- C1, witness: `advAll` satisfies both hypotheses and gets a
duplicate-free extension vector. -/
theorem C1_extensions_nodup_witness :
    (advAll.required_device_extensions 0).Nodup ∧
      (∀ e ∈ registryOptionals, advAll.supports_extension e = true →
        e ∉ advAll.required_device_extensions 0) ∧
      (fill_extensions ExtendedFeatures.default advAll 0).extensions.Nodup :=
  ⟨by decide, by decide, C1_extensions_nodup advAll 0 (by decide) (by decide)⟩

/-- C2: an optional descriptor (`cmma`, `atomic_float`, `atomic_float2`,
`float_controls2`) is `Some` in the set `fill_extensions` builds if and
only if the capability probe reported the corresponding extension
supported. -/
theorem C2_optional_iff_supported (a : Adapter) (f : Features) :
    ((fill_extensions ExtendedFeatures.default a f).cmma.isSome = true ↔
      a.supports_extension ExtName.khrCooperativeMatrix = true) ∧
    ((fill_extensions ExtendedFeatures.default a f).atomic_float.isSome = true ↔
      a.supports_extension ExtName.extShaderAtomicFloat = true) ∧
    ((fill_extensions ExtendedFeatures.default a f).atomic_float2.isSome = true ↔
      a.supports_extension ExtName.extShaderAtomicFloat2 = true) ∧
    ((fill_extensions ExtendedFeatures.default a f).float_controls2.isSome = true ↔
      a.supports_extension ExtName.khrShaderFloatControls2 = true) := by
  by_cases h1 : a.supports_extension ExtName.khrCooperativeMatrix = true <;>
  by_cases h2 : a.supports_extension ExtName.extShaderAtomicFloat = true <;>
  by_cases h3 : a.supports_extension ExtName.extShaderAtomicFloat2 = true <;>
  by_cases h4 : a.supports_extension ExtName.khrShaderFloatControls2 = true <;>
  simp [fill_extensions_char, ExtendedFeatures.default, h1, h2, h3, h4]

/-- C3: the extension vector is ordered deterministically, the
mandatory-derived extensions (the `required_device_extensions` answer)
first, then the detected optional extensions in fixed registry order
(cooperative-matrix, shader-atomic-float, shader-atomic-float2,
shader-float-controls2). -/
theorem C3_extension_order (a : Adapter) (f : Features) :
    (fill_extensions ExtendedFeatures.default a f).extensions =
      a.required_device_extensions f
        ++ registryOptionals.filter a.supports_extension :=
  fill_extensions_extensions_eq a f

/-- C4, counterexample: with no optional extension supported, the query
chain is traversed `subgroup_extended, buf_8, buf_16, float16_int8,
mem_model` — not the claimed selection order starting at `mem_model`
(`push_next` prepends, so the chain runs in reverse push order). -/
theorem C4_counterexample :
    chainToList
        (link_all (fill_extensions ExtendedFeatures.default advNone 0)
          { pNext := none }).1 9
        (link_all (fill_extensions ExtendedFeatures.default advNone 0)
          { pNext := none }).2.pNext =
      [DescId.subgroupExtended, DescId.buf8, DescId.buf16,
        DescId.float16Int8, DescId.memModel] ∧
    [DescId.subgroupExtended, DescId.buf8, DescId.buf16,
        DescId.float16Int8, DescId.memModel] ≠
      [DescId.memModel, DescId.float16Int8, DescId.buf16,
        DescId.buf8, DescId.subgroupExtended] := by
  decide

/-- C4 (amended): in both the query chain and the device-create chain the
descriptors are linked in the reverse of the selection order: from the
head, the present optional descriptors in reverse registry order
(float_controls2, atomic_float2, atomic_float, cmma), then the mandatory
descriptors in reverse declaration order (subgroup_extended, buf_8,
buf_16, float16_int8, mem_model); `mem_model`, the first descriptor
pushed, carries the null link that terminates the chain. -/
theorem C4_amended_chain_order (a : Adapter) (f : Features) :
    (chainToList
        (link_all (fill_extensions ExtendedFeatures.default a f)
          { pNext := none }).1 9
        (link_all (fill_extensions ExtendedFeatures.default a f)
          { pNext := none }).2.pNext =
      (if a.supports_extension ExtName.khrShaderFloatControls2 then
        [DescId.floatControls2] else [])
      ++ (if a.supports_extension ExtName.extShaderAtomicFloat2 then
        [DescId.atomicFloat2] else [])
      ++ (if a.supports_extension ExtName.extShaderAtomicFloat then
        [DescId.atomicFloat] else [])
      ++ (if a.supports_extension ExtName.khrCooperativeMatrix then
        [DescId.cmma] else [])
      ++ [DescId.subgroupExtended, DescId.buf8, DescId.buf16,
          DescId.float16Int8, DescId.memModel]) ∧
    (chainToList
        (add_to_device_create (from_adapter a f) { pNext := none }).1 9
        (add_to_device_create (from_adapter a f) { pNext := none }).2.pNext =
      (if a.supports_extension ExtName.khrShaderFloatControls2 then
        [DescId.floatControls2] else [])
      ++ (if a.supports_extension ExtName.extShaderAtomicFloat2 then
        [DescId.atomicFloat2] else [])
      ++ (if a.supports_extension ExtName.extShaderAtomicFloat then
        [DescId.atomicFloat] else [])
      ++ (if a.supports_extension ExtName.khrCooperativeMatrix then
        [DescId.cmma] else [])
      ++ [DescId.subgroupExtended, DescId.buf8, DescId.buf16,
          DescId.float16Int8, DescId.memModel]) :=
  ⟨query_chain_list a f, device_chain_list a f⟩

/-- C5: after `zero_pointers` runs, the link field of every descriptor
owned by the set — the five mandatory ones unconditionally and each
present optional one — is null. -/
theorem C5_sanitize_all_null (s : ExtendedFeatures) :
    allLinksNull (zero_pointers s) = true :=
  zero_pointers_all_null s

/-- C6: in the `from_adapter` flow the sanitizer runs after the native
feature query and before `add_to_device_create` can build the second
chain: the state `from_adapter` hands over has every link field null, so
no link of the query chain is carried into the device-create chain. -/
theorem C6_no_links_carried (a : Adapter) (f : Features) :
    allLinksNull (from_adapter a f) = true := by
  simp only [from_adapter, fill_features]
  exact zero_pointers_all_null _

/-- C7: the query chain and the device-create chain built over the same
negotiation reference exactly the same descriptors: the two traversals
are equal, and a descriptor is in the chain precisely when it is present
in the set (all five mandatory ones and exactly the optional ones the
probe filled). -/
theorem C7_chains_same_descriptors (a : Adapter) (f : Features) :
    (chainToList
        (add_to_device_create (from_adapter a f) { pNext := none }).1 9
        (add_to_device_create (from_adapter a f) { pNext := none }).2.pNext =
      chainToList
        (link_all (fill_extensions ExtendedFeatures.default a f)
          { pNext := none }).1 9
        (link_all (fill_extensions ExtendedFeatures.default a f)
          { pNext := none }).2.pNext) ∧
    ∀ id : DescId,
      id ∈ chainToList
          (link_all (fill_extensions ExtendedFeatures.default a f)
            { pNext := none }).1 9
          (link_all (fill_extensions ExtendedFeatures.default a f)
            { pNext := none }).2.pNext ↔
        ((fill_extensions ExtendedFeatures.default a f).get id).isSome = true := by
  refine ⟨by rw [device_chain_list, query_chain_list], ?_⟩
  intro id
  rw [query_chain_list, fill_extensions_char]
  by_cases h1 : a.supports_extension ExtName.khrCooperativeMatrix = true <;>
  by_cases h2 : a.supports_extension ExtName.extShaderAtomicFloat = true <;>
  by_cases h3 : a.supports_extension ExtName.extShaderAtomicFloat2 = true <;>
  by_cases h4 : a.supports_extension ExtName.khrShaderFloatControls2 = true <;>
  cases id <;>
  simp [h1, h2, h3, h4, ExtendedFeatures.get, ExtendedFeatures.default]

/-- C8, counterexample: invoking the chain build while `mem_model`'s link
field is still set does not abort — it silently returns a chain in which
the stale link was incorporated, leaving `mem_model` and `float16_int8`
linked to each other (a cycle, so the traversal is not duplicate-free). -/
theorem C8_counterexample :
    (add_to_device_create sDirty { pNext := none }).1.mem_model.pNext =
        some DescId.float16Int8 ∧
      (add_to_device_create sDirty { pNext := none }).1.float16_int8.pNext =
        some DescId.memModel ∧
      ¬ (chainToList (add_to_device_create sDirty { pNext := none }).1 9
          (add_to_device_create sDirty { pNext := none }).2.pNext).Nodup := by
  decide

/-- C8 (amended): `add_to_device_create` performs no check on the link
fields: invoked on any set whose `mem_model` still links to
`float16_int8` (sanitizer skipped), it completes normally and silently
produces a corrupted chain in which the two descriptors link to each
other. -/
theorem C8_silent_corruption (s : ExtendedFeatures)
    (h1 : s.mem_model.pNext = some DescId.float16Int8)
    (h2 : s.float16_int8.pNext = none)
    (h3 : s.buf_16.pNext = none)
    (h4 : s.buf_8.pNext = none)
    (h5 : s.subgroup_extended.pNext = none)
    (h6 : s.cmma = none)
    (h7 : s.atomic_float = none)
    (h8 : s.atomic_float2 = none)
    (h9 : s.float_controls2 = none) :
    (add_to_device_create s { pNext := none }).1.mem_model.pNext =
        some DescId.float16Int8 ∧
      (add_to_device_create s { pNext := none }).1.float16_int8.pNext =
        some DescId.memModel := by
  simp [add_to_device_create, link_all, push_next, push_opt, chainLast,
    ExtendedFeatures.get, ExtendedFeatures.setPNext,
    h1, h2, h3, h4, h5, h6, h7, h8, h9]

/-- C8, witness: the concrete dirty set `sDirty` satisfies every
hypothesis and exhibits the silent corruption. -/
theorem C8_silent_corruption_witness :
    sDirty.mem_model.pNext = some DescId.float16Int8 ∧
      sDirty.cmma = none ∧
      (add_to_device_create sDirty { pNext := none }).1.mem_model.pNext =
        some DescId.float16Int8 ∧
      (add_to_device_create sDirty { pNext := none }).1.float16_int8.pNext =
        some DescId.memModel :=
  ⟨rfl, rfl,
    (C8_silent_corruption sDirty rfl rfl rfl rfl rfl rfl rfl rfl rfl).1,
    (C8_silent_corruption sDirty rfl rfl rfl rfl rfl rfl rfl rfl rfl).2⟩

/-- C9: the capability probe is idempotent — running `fill_extensions` a
second time with the same adapter answers (it overwrites the extension
vector rather than appending) reproduces exactly the same set, extension
vector and optional descriptors. -/
theorem C9_probe_idempotent (a : Adapter) (f : Features) :
    fill_extensions (fill_extensions ExtendedFeatures.default a f) a f =
      fill_extensions ExtendedFeatures.default a f := by
  rw [fill_extensions_char, fill_extensions_char]
  by_cases h1 : a.supports_extension ExtName.khrCooperativeMatrix = true <;>
  by_cases h2 : a.supports_extension ExtName.extShaderAtomicFloat = true <;>
  by_cases h3 : a.supports_extension ExtName.extShaderAtomicFloat2 = true <;>
  by_cases h4 : a.supports_extension ExtName.khrShaderFloatControls2 = true <;>
  simp [h1, h2, h3, h4, ExtendedFeatures.default]

/-- C10: `zero_pointers` touches only the link fields — for every
descriptor id, presence and flags are exactly what they were before, so
the flag values the native query wrote are the values handed unchanged to
device creation. -/
theorem C10_sanitizer_preserves_flags (s : ExtendedFeatures) (id : DescId) :
    ((zero_pointers s).get id).map Descriptor.flags =
        ((s.get id).map Descriptor.flags) ∧
      ((zero_pointers s).get id).isSome = (s.get id).isSome := by
  obtain ⟨mm, fi, b16, b8, sg, oc, oa, oa2, of2, ex⟩ := s
  cases id <;> cases oc <;> cases oa <;> cases oa2 <;> cases of2 <;>
    simp [zero_pointers, ExtendedFeatures.get]

end VulkanFeatures
